import Mathlib

/-!
Shallow embedding of the reqsign credential-resolution subsystem.

Sources embedded:
- src/src/aws/credential.rs         (CredentialLoader: cache, provider chain, web-identity retry)
- src/services/aws-v4/src/load/imds.rs  (IMDSv2Loader: session-token sub-cache, Code dispatch)
- src/src/azure/storage/imds_credential.rs (ImdsManagedIdentityCredential: builders, get_token)
- src/src/azure/storage/loader.rs   (azure storage Loader: cache, static config provider)

Stateful Rust code is embedded as explicit state passing; network and file
system effects are embedded as oracle functions passed in as arguments, and
each operation additionally returns the trace of requests it issued, so that
claims about "no network call" become claims about an empty trace.
Timestamps are integers (seconds); clock reads become explicit arguments.
-/

/-- HTTP request as the embedded code builds it: method, uri, header list,
query parameter list and body. -/
structure HttpRequest where
  method : String
  uri : String
  headers : List (String × String)
  query : List (String × String)
  body : String
deriving Repr, DecidableEq

/-- HTTP response: numeric status and a string body. -/
structure HttpResponse where
  status : Nat
  body : String
deriving Repr, DecidableEq

/-! ## AWS data model (crate::credential::Credential) -/

/-- AWS-shape credential, from the spec data model section 3: access key id,
secret key, optional session token, optional expiry timestamp. The struct
itself lives in crate::credential which is outside the excerpt; its shape is
fixed by the spec and by every use in src/src/aws/credential.rs and
src/services/aws-v4/src/load/imds.rs. -/
structure Credential where
  access_key_id : String
  secret_access_key : String
  session_token : Option String
  expires_in : Option Int
deriving Repr, DecidableEq

/-- Modelled from the spec: Credential.is_valid of crate::credential is not
under src. Spec section 3 states the invariant: valid iff expires_in is
absent, or expires_in is strictly greater than now. -/
def Credential.is_valid (c : Credential) (now : Int) : Bool :=
  match c.expires_in with
  | none => true
  | some t => now < t

/-- Modelled from the spec: Credential.check of crate::credential is not
under src. Spec section 4.4 says to validate all fields non-empty before
returning Some. -/
def Credential.check (c : Credential) : Except String Unit :=
  if c.access_key_id = "" then Except.error "access_key_id is empty"
  else if c.secret_access_key = "" then Except.error "secret_access_key is empty"
  else match c.session_token with
  | some t => if t = "" then Except.error "session_token is empty" else Except.ok ()
  | none => Except.ok ()

/-! ## AWS CredentialLoader (src/src/aws/credential.rs) -/

/-- Accessor view of the ConfigLoader collaborator after one of its load_via
side effects ran: the three fields the env and profile providers read. -/
structure ConfigState where
  access_key_id : Option String
  secret_access_key : Option String
  session_token : Option String
deriving Repr, DecidableEq

/-- Names of the three providers the AWS chain can invoke, in the order the
chain tries them. -/
inductive Provider
  | env
  | profile
  | webIdentity
deriving Repr, DecidableEq

/-- CredentialLoader state: the cache slot (contents of the RwLock) plus the
static disable flags. The ureq client and the ConfigLoader handle carry no
state the embedded claims depend on; ConfigLoader reads are passed in as
ConfigState arguments. -/
structure CredentialLoader where
  credential : Option Credential
  disable_env : Bool
  disable_profile : Bool
  disable_assume_role_with_web_identity : Bool
deriving Repr, DecidableEq

/-- Embeds CredentialLoader::load_via_env (src/src/aws/credential.rs lines
95 to 112): skip when disabled; after ConfigLoader::load_via_env, require
both access key id and secret key, attach the session token when present. -/
def CredentialLoader.load_via_env (l : CredentialLoader) (envCfg : ConfigState) :
    Option Credential :=
  if l.disable_env then none
  else
    match envCfg.access_key_id, envCfg.secret_access_key with
    | some ak, some sk =>
        some { access_key_id := ak, secret_access_key := sk,
               session_token := envCfg.session_token, expires_in := none }
    | _, _ => none

/-- Embeds CredentialLoader::load_via_profile (src/src/aws/credential.rs
lines 114 to 131): same dual-field contract as load_via_env, reading the
ConfigLoader state after load_via_profile ran. -/
def CredentialLoader.load_via_profile (l : CredentialLoader) (profileCfg : ConfigState) :
    Option Credential :=
  if l.disable_profile then none
  else
    match profileCfg.access_key_id, profileCfg.secret_access_key with
    | some ak, some sk =>
        some { access_key_id := ak, secret_access_key := sk,
               session_token := profileCfg.session_token, expires_in := none }
    | _, _ => none

/-- Entry guard of CredentialLoader::load_via_assume_role_with_web_identity
(lines 138 to 141): skip when disabled, otherwise the retry machinery runs;
for the chain its overall result is the webResult argument. -/
def CredentialLoader.load_web (l : CredentialLoader) (webResult : Option Credential) :
    Option Credential :=
  if l.disable_assume_role_with_web_identity then none else webResult

/-- Result of one CredentialLoader::load call: the returned value, the loader
state after the call (only the cache slot can change), and the list of
provider methods that were entered, in order. An empty invoked list means no
provider code ran, hence no I/O was performed. -/
structure LoadOutcome where
  result : Option Credential
  loader : CredentialLoader
  invoked : List Provider
deriving Repr, DecidableEq

/-- Provider chain of CredentialLoader::load (lines 84 to 86): env, then
profile, then assume-role-with-web-identity, short-circuiting on the first
Some. Returns the chain value and the providers entered. -/
def CredentialLoader.chain (l : CredentialLoader) (envCfg profileCfg : ConfigState)
    (webResult : Option Credential) : Option Credential × List Provider :=
  match l.load_via_env envCfg with
  | some c => (some c, [Provider.env])
  | none =>
    match l.load_via_profile profileCfg with
    | some c => (some c, [Provider.env, Provider.profile])
    | none =>
      match l.load_web webResult with
      | some c => (some c, [Provider.env, Provider.profile, Provider.webIdentity])
      | none => (none, [Provider.env, Provider.profile, Provider.webIdentity])

/-- Cache-miss tail of CredentialLoader::load (lines 84 to 93): run the
chain; a Some result is written into the cache slot and returned; a None
result leaves the slot untouched. -/
def CredentialLoader.loadOnMiss (l : CredentialLoader) (envCfg profileCfg : ConfigState)
    (webResult : Option Credential) : LoadOutcome :=
  match l.chain envCfg profileCfg webResult with
  | (some cred, tr) =>
      { result := some cred, loader := { l with credential := some cred }, invoked := tr }
  | (none, tr) => { result := none, loader := l, invoked := tr }

/-- Embeds CredentialLoader::load (src/src/aws/credential.rs lines 77 to 93):
return a copy of the cached credential when it is present and valid at the
current time, otherwise fall through to the provider chain. -/
def CredentialLoader.load (l : CredentialLoader) (now : Int)
    (envCfg profileCfg : ConfigState) (webResult : Option Credential) : LoadOutcome :=
  match l.credential with
  | some cred =>
      if cred.is_valid now then { result := some cred, loader := l, invoked := [] }
      else l.loadOnMiss envCfg profileCfg webResult
  | none => l.loadOnMiss envCfg profileCfg webResult

/-! ## WebIdentityProvider retry loop (src/src/aws/credential.rs lines 138 to 203) -/

/-- Backoff delay in seconds before retry number i, for backon
ExponentialBackoff with min delay 1s, factor 2, max delay 60s, with jitter:
the base delay doubles from 1s and the jitter multiplies it by a factor in
the interval from 1 inclusive to 2 exclusive. The jitter stream is passed in
as a function from the attempt index to the sampled fraction. -/
def backoffDelay (jitter : Nat → ℚ) (i : Nat) : ℚ :=
  min ((2 : ℚ) ^ i) 60 * (1 + jitter i)

/-- Result of the web-identity retry loop: the value returned to the chain,
the total number of attempts made, the backoff sleeps performed between
attempts, and whether the exhaustion warning was logged. -/
structure RetryOutcome where
  result : Option Credential
  attempts : Nat
  sleeps : List ℚ
  warned : Bool
deriving Repr, DecidableEq

/-- Embeds the loop of load_via_assume_role_with_web_identity (lines 151 to
165): call the inner function; on Ok return its value; on Err consult the
backoff iterator, sleeping and retrying while it yields a delay, and when it
is exhausted log a warning and return None. The attempt argument is the
index of the attempt about to run, remaining is the number of delays the
backoff iterator can still yield. -/
def retryLoop (inner : Nat → Except String (Option Credential)) (jitter : Nat → ℚ) :
    Nat → Nat → RetryOutcome
  | attempt, 0 =>
    match inner attempt with
    | Except.ok v => { result := v, attempts := attempt + 1, sleeps := [], warned := false }
    | Except.error _ =>
        { result := none, attempts := attempt + 1, sleeps := [], warned := true }
  | attempt, r + 1 =>
    match inner attempt with
    | Except.ok v => { result := v, attempts := attempt + 1, sleeps := [], warned := false }
    | Except.error _ =>
        let rest := retryLoop inner jitter (attempt + 1) r
        { result := rest.result, attempts := rest.attempts,
          sleeps := backoffDelay jitter attempt :: rest.sleeps, warned := rest.warned }

/-- Embeds load_via_assume_role_with_web_identity (lines 138 to 166): when
disabled return None with no attempt; otherwise run the retry loop with the
backoff capped at 4 retries, so at most 5 attempts in total. -/
def load_via_assume_role_with_web_identity (disable : Bool)
    (inner : Nat → Except String (Option Credential)) (jitter : Nat → ℚ) : RetryOutcome :=
  if disable then { result := none, attempts := 0, sleeps := [], warned := false }
  else retryLoop inner jitter 0 4

/-! ## WebIdentityProvider inner exchange (src/src/aws/credential.rs lines 168 to 203) -/

/-- Static configuration the inner exchange reads from the ConfigLoader:
token-file path, role ARN (both optional) and the role session name (the
accessor already applies the default). -/
structure AwsWebConfig where
  web_identity_token_file : Option String
  role_arn : Option String
  role_session_name : String
deriving Repr, DecidableEq

/-- Credentials node of the STS AssumeRoleWithWebIdentity XML response
(struct AssumeRoleWithWebIdentityCredentials, lines 219 to 226). -/
structure StsCredentials where
  access_key_id : String
  secret_access_key : String
  session_token : String
  expiration : String
deriving Repr, DecidableEq

/-- Result of one load_via_assume_role_with_web_identity_inner call: the
returned value, the files read and the HTTP requests issued. -/
structure InnerOutcome where
  result : Except String (Option Credential)
  files_read : List String
  requests : List HttpRequest
deriving Repr

/-- Embeds load_via_assume_role_with_web_identity_inner (lines 168 to 203):
require both the token-file path and the role ARN to be configured, else Ok
None; read the token file; GET the STS endpoint; non-200 is an error; parse
the XML body, parse the RFC3339 expiration, validate the credential. File
reads, the HTTP transport, XML deserialization and RFC3339 parsing are
oracles passed in as arguments. -/
def load_via_assume_role_with_web_identity_inner (cfg : AwsWebConfig)
    (readFile : String → Except String String)
    (http : HttpRequest → Except String HttpResponse)
    (parseXml : String → Except String StsCredentials)
    (parseRfc3339 : String → Except String Int) : InnerOutcome :=
  match cfg.web_identity_token_file, cfg.role_arn with
  | some token_file, some role_arn =>
    (match readFile token_file with
     | Except.error e => { result := Except.error e, files_read := [token_file], requests := [] }
     | Except.ok token =>
       let url := "https://sts.amazonaws.com/?Action=AssumeRoleWithWebIdentity&RoleArn="
         ++ role_arn ++ "&WebIdentityToken=" ++ token ++ "&Version=2011-06-15&RoleSessionName="
         ++ cfg.role_session_name
       let req : HttpRequest :=
         { method := "GET", uri := url,
           headers := [("content-type", "application/x-www-form-urlencoded")],
           query := [], body := "" }
       match http req with
       | Except.error e =>
           { result := Except.error e, files_read := [token_file], requests := [req] }
       | Except.ok resp =>
         if resp.status ≠ 200 then
           { result := Except.error ("request to AWS STS Services failed: " ++ resp.body),
             files_read := [token_file], requests := [req] }
         else
           match parseXml resp.body with
           | Except.error e =>
               { result := Except.error e, files_read := [token_file], requests := [req] }
           | Except.ok rc =>
             match parseRfc3339 rc.expiration with
             | Except.error e =>
                 { result := Except.error e, files_read := [token_file], requests := [req] }
             | Except.ok exp =>
               let cred : Credential :=
                 { access_key_id := rc.access_key_id,
                   secret_access_key := rc.secret_access_key,
                   session_token := some rc.session_token,
                   expires_in := some exp }
               match cred.check with
               | Except.error e =>
                   { result := Except.error e, files_read := [token_file], requests := [req] }
               | Except.ok _ =>
                   { result := Except.ok (some cred),
                     files_read := [token_file], requests := [req] })
  | _, _ => { result := Except.ok none, files_read := [], requests := [] }

/-! ## IMDSv2Loader (src/services/aws-v4/src/load/imds.rs) -/

/-- Session-token sub-cache of IMDSv2Loader: the stored token and its
self-imposed expiry timestamp (contents of the Mutex at field token). -/
structure TokenCache where
  token : String
  expires_in : Int
deriving Repr, DecidableEq

/-- The PUT request load_ec2_metadata_token builds (lines 26 to 33): token
endpoint, content-length 0, TTL header 21600 seconds, empty body. -/
def ec2TokenRequest : HttpRequest :=
  { method := "PUT", uri := "http://169.254.169.254/latest/api/token",
    headers := [("content-length", "0"), ("x-aws-ec2-metadata-token-ttl-seconds", "21600")],
    query := [], body := "" }

/-- Result of one load_ec2_metadata_token call: the returned token or error,
the sub-cache contents after the call, and the HTTP requests issued. -/
structure TokenPhaseOutcome where
  result : Except String String
  cache : TokenCache
  requests : List HttpRequest
deriving Repr

/-- Embeds IMDSv2Loader::load_ec2_metadata_token
(src/services/aws-v4/src/load/imds.rs lines 18 to 52): when the stored
expiry is strictly in the future return the stored token with no request;
otherwise issue the token PUT, fail on non-200, and on success store the
body with expiry now plus 21600 seconds minus 600 seconds. -/
def load_ec2_metadata_token (cache : TokenCache) (now : Int)
    (http : HttpRequest → Except String HttpResponse) : TokenPhaseOutcome :=
  if now < cache.expires_in then
    { result := Except.ok cache.token, cache := cache, requests := [] }
  else
    match http ec2TokenRequest with
    | Except.error e => { result := Except.error e, cache := cache, requests := [ec2TokenRequest] }
    | Except.ok resp =>
      if resp.status ≠ 200 then
        { result := Except.error ("request to AWS EC2 Metadata Services failed: " ++ resp.body),
          cache := cache, requests := [ec2TokenRequest] }
      else
        { result := Except.ok resp.body,
          cache := { token := resp.body, expires_in := now + 21600 - 600 },
          requests := [ec2TokenRequest] }

/-- Parsed JSON body of the per-profile credential endpoint (struct
Ec2MetadataIamSecurityCredentials, lines 128 to 138). -/
structure Ec2MetadataIamSecurityCredentials where
  access_key_id : String
  secret_access_key : String
  token : String
  expiration : String
  code : String
  message : String
deriving Repr, DecidableEq

/-- Error message built for Code AssumeRoleUnauthorizedAccess
(src/services/aws-v4/src/load/imds.rs lines 102 to 107). -/
def imdsUnauthorizedMsg (code message : String) : String :=
  "Incorrect IMDS/IAM configuration: [" ++ code ++ "] " ++ message
    ++ ". Hint: Does this role have a trust relationship with EC2?"

/-- Error message built for any other non-Success Code (lines 110 to 114). -/
def imdsGenericErrorMsg (code message : String) : String :=
  "Error retrieving credentials from IMDS: " ++ code ++ " " ++ message

/-- Embeds the Code dispatch of IMDSv2Loader::load
(src/services/aws-v4/src/load/imds.rs lines 100 to 124) on the parsed
credential JSON: AssumeRoleUnauthorizedAccess gives the trust-relationship
error, any other non-Success code gives the generic error, Success builds
the credential with the RFC3339-parsed expiration (parser passed in as an
oracle). -/
def imdsCodeDispatch (parseRfc3339 : String → Except String Int)
    (resp : Ec2MetadataIamSecurityCredentials) : Except String (Option Credential) :=
  if resp.code = "AssumeRoleUnauthorizedAccess" then
    Except.error (imdsUnauthorizedMsg resp.code resp.message)
  else if resp.code ≠ "Success" then
    Except.error (imdsGenericErrorMsg resp.code resp.message)
  else
    match parseRfc3339 resp.expiration with
    | Except.error e => Except.error e
    | Except.ok exp =>
        Except.ok (some
          { access_key_id := resp.access_key_id,
            secret_access_key := resp.secret_access_key,
            session_token := some resp.token,
            expires_in := some exp })

/-! ## Azure managed identity (src/src/azure/storage/imds_credential.rs) -/

/-- ImdsManagedIdentityCredential state: endpoint override, optional secret
and the three optional identity-selector fields. -/
structure ImdsManagedIdentityCredential where
  endpoint : Option String
  secret : Option String
  object_id : Option String
  client_id : Option String
  msi_res_id : Option String
deriving Repr, DecidableEq

/-- Embeds ImdsManagedIdentityCredential::new (lines 32 to 40). -/
def ImdsManagedIdentityCredential.new : ImdsManagedIdentityCredential :=
  { endpoint := none, secret := none, object_id := none, client_id := none, msi_res_id := none }

/-- Embeds with_object_id (lines 63 to 71): sets object_id and clears
client_id and msi_res_id. -/
def ImdsManagedIdentityCredential.with_object_id
    (c : ImdsManagedIdentityCredential) (s : String) : ImdsManagedIdentityCredential :=
  { c with object_id := some s, client_id := none, msi_res_id := none }

/-- Embeds with_client_id (lines 76 to 84): sets client_id and clears
object_id and msi_res_id. -/
def ImdsManagedIdentityCredential.with_client_id
    (c : ImdsManagedIdentityCredential) (s : String) : ImdsManagedIdentityCredential :=
  { c with client_id := some s, object_id := none, msi_res_id := none }

/-- Embeds with_identity (lines 89 to 97): sets msi_res_id and clears
object_id and client_id. -/
def ImdsManagedIdentityCredential.with_identity
    (c : ImdsManagedIdentityCredential) (s : String) : ImdsManagedIdentityCredential :=
  { c with msi_res_id := some s, object_id := none, client_id := none }

/-- The MSI protocol API version (line 7). -/
def MSI_API_VERSION : String := "2019-08-01"

/-- Selector query items pushed by the match in get_token (lines 106 to
115): exactly one item when exactly one selector field is set, nothing
otherwise. -/
def ImdsManagedIdentityCredential.selectorItems
    (c : ImdsManagedIdentityCredential) : List (String × String) :=
  match c.object_id, c.client_id, c.msi_res_id with
  | some object_id, none, none => [("object_id", object_id)]
  | none, some client_id, none => [("client_id", client_id)]
  | none, none, some msi_res_id => [("msi_res_id", msi_res_id)]
  | _, _, _ => []

/-- Query parameter list get_token builds (lines 104 to 115): api-version
and resource first, then the selector items. -/
def ImdsManagedIdentityCredential.queryItems
    (c : ImdsManagedIdentityCredential) (resource : String) : List (String × String) :=
  [("api-version", MSI_API_VERSION), ("resource", resource)] ++ c.selectorItems

/-- The GET request get_token builds (lines 100 to 129): configured endpoint
or the default, query items as above, metadata header always, the
x-identity-header only when a secret is configured, empty body. -/
def ImdsManagedIdentityCredential.buildTokenRequest
    (c : ImdsManagedIdentityCredential) (resource : String) : HttpRequest :=
  { method := "GET",
    uri := c.endpoint.getD "http://169.254.169.254/metadata/identity/oauth2/token",
    headers := [("metadata", "true")] ++
      (match c.secret with
       | some s => [("x-identity-header", s)]
       | none => []),
    query := c.queryItems resource,
    body := "" }

/-- Parsed JSON body of a successful MSI token response (struct
MsiTokenResponse, lines 147 to 155). -/
structure MsiTokenResponse where
  access_token : String
  token_type : String
  resource : String
deriving Repr, DecidableEq

/-- Outcome of a get_token call. The source panics on a non-success status
(line 136); the panic is embedded as the distinct panicked constructor so it
is separated from errors returned through the Result channel. -/
inductive GetTokenResult
  | ok (r : MsiTokenResponse)
  | err (e : String)
  | panicked (e : String)
deriving Repr, DecidableEq

/-- Result of one get_token call with the trace of HTTP requests issued. -/
structure GetTokenOutcome where
  result : GetTokenResult
  requests : List HttpRequest
deriving Repr, DecidableEq

/-- Embeds http StatusCode::is_success: status in the range 200 to 299. -/
def statusIsSuccess (s : Nat) : Bool :=
  200 ≤ s ∧ s < 300

/-- Embeds ImdsManagedIdentityCredential::get_token (lines 99 to 142): build
the request, send it once, panic on a non-success status, otherwise parse
the JSON body (parser passed in as an oracle). No retry of any kind. -/
def ImdsManagedIdentityCredential.get_token
    (c : ImdsManagedIdentityCredential) (resource : String)
    (http : HttpRequest → Except String HttpResponse)
    (parseJson : String → Except String MsiTokenResponse) : GetTokenOutcome :=
  let req := c.buildTokenRequest resource
  match http req with
  | Except.error e => { result := GetTokenResult.err e, requests := [req] }
  | Except.ok resp =>
    if ¬ statusIsSuccess resp.status then
      { result := GetTokenResult.panicked ("Error getting MSI token: " ++ resp.body),
        requests := [req] }
    else
      match parseJson resp.body with
      | Except.error e => { result := GetTokenResult.err e, requests := [req] }
      | Except.ok x => { result := GetTokenResult.ok x, requests := [req] }

/-- Builder calls on the three identity selectors, for reasoning about
arbitrary call sequences. -/
inductive SelectorOp
  | objectId (s : String)
  | clientId (s : String)
  | identity (s : String)
deriving Repr, DecidableEq

/-- Applies one selector builder call. -/
def applySelectorOp (c : ImdsManagedIdentityCredential) :
    SelectorOp → ImdsManagedIdentityCredential
  | SelectorOp.objectId s => c.with_object_id s
  | SelectorOp.clientId s => c.with_client_id s
  | SelectorOp.identity s => c.with_identity s

/-- Applies a sequence of selector builder calls, left to right. -/
def applySelectorOps (c : ImdsManagedIdentityCredential) (ops : List SelectorOp) :
    ImdsManagedIdentityCredential :=
  ops.foldl applySelectorOp c

/-- Number of identity-selector fields that are set. -/
def selectorCount (c : ImdsManagedIdentityCredential) : Nat :=
  c.object_id.toList.length + c.client_id.toList.length + c.msi_res_id.toList.length

/-- The query item a single selector builder call would contribute. -/
def SelectorOp.item : SelectorOp → List (String × String)
  | SelectorOp.objectId s => [("object_id", s)]
  | SelectorOp.clientId s => [("client_id", s)]
  | SelectorOp.identity s => [("msi_res_id", s)]

/-! ## Azure storage loader (src/src/azure/storage/loader.rs) -/

/-- Azure-shape credential (super::credential::Credential), the tagged
variant the spec data model section 3 gives and loader.rs constructs:
SharedKey, SharedAccessSignature or BearerToken. No expiry is tracked. -/
inductive AzureCredential
  | SharedKey (account_name : String) (account_key : String)
  | SharedAccessSignature (token : String)
  | BearerToken (token : String)
deriving Repr, DecidableEq

/-- Static Azure storage config fields the loader reads. -/
structure AzureConfig where
  sas_token : Option String
  account_name : Option String
  account_key : Option String
deriving Repr, DecidableEq

/-- Azure storage Loader state: the static config and the cache slot
(contents of the Mutex). -/
structure AzureLoader where
  config : AzureConfig
  credential : Option AzureCredential
deriving Repr, DecidableEq

/-- Result of one Azure loader call: the returned value, the loader state
after the call, and the number of IMDS token requests issued. -/
structure AzureLoadOutcome where
  result : Except String (Option AzureCredential)
  loader : AzureLoader
  imds_requests : Nat
deriving Repr

/-- Embeds Loader::load_via_config (src/src/azure/storage/loader.rs lines 69
to 81): a configured SAS token wins, else account name plus account key,
else None; never an error, no I/O. -/
def AzureLoader.load_via_config (l : AzureLoader) : Except String (Option AzureCredential) :=
  match l.config.sas_token with
  | some token => Except.ok (some (AzureCredential.SharedAccessSignature token))
  | none =>
    match l.config.account_name, l.config.account_key with
    | some ak, some sk => Except.ok (some (AzureCredential.SharedKey ak sk))
    | _, _ => Except.ok none

/-- Embeds Loader::load_inner (lines 61 to 67): forward load_via_config. -/
def AzureLoader.load_inner (l : AzureLoader) : Except String (Option AzureCredential) :=
  match l.load_via_config with
  | Except.error e => Except.error e
  | Except.ok (some cred) => Except.ok (some cred)
  | Except.ok none => Except.ok none

/-- Embeds Loader::load (src/src/azure/storage/loader.rs lines 29 to 41):
any cached credential is returned as is, with no validity check; otherwise
load_inner runs and its result is written into the slot. -/
def AzureLoader.load (l : AzureLoader) : AzureLoadOutcome :=
  match l.credential with
  | some cred =>
      { result := Except.ok (some cred), loader := l, imds_requests := 0 }
  | none =>
    match l.load_inner with
    | Except.error e => { result := Except.error e, loader := l, imds_requests := 0 }
    | Except.ok cred =>
        { result := Except.ok cred, loader := { l with credential := cred },
          imds_requests := 0 }

/-- Embeds Loader::load_with_imds (src/src/azure/storage/loader.rs lines 44
to 59): any cached credential is returned as is, with no validity check and
no IMDS request; otherwise get_access_token runs (the free function
imds_credential::get_access_token is outside the excerpt, so its result is
an oracle argument and each run counts one IMDS request), and on success a
BearerToken credential is cached and returned. -/
def AzureLoader.load_with_imds (l : AzureLoader)
    (get_access_token : Except String MsiTokenResponse) : AzureLoadOutcome :=
  match l.credential with
  | some cred =>
      { result := Except.ok (some cred), loader := l, imds_requests := 0 }
  | none =>
    match get_access_token with
    | Except.error e => { result := Except.error e, loader := l, imds_requests := 1 }
    | Except.ok token =>
        let cred := some (AzureCredential.BearerToken token.access_token)
        { result := Except.ok cred, loader := { l with credential := cred },
          imds_requests := 1 }

/-! ## Theorems -/

/-- C1: whenever the cache slot holds a credential that is valid at the time
load is called, load returns exactly that credential, invokes no provider
and performs no I/O (empty invoked trace) and leaves the loader unchanged;
a second load within the validity window returns the identical value. -/
theorem aws_load_cache_hit (l : CredentialLoader) (now now2 : Int)
    (e p e2 p2 : ConfigState) (w w2 : Option Credential) (c : Credential)
    (hc : l.credential = some c) (hv : c.is_valid now = true)
    (hv2 : c.is_valid now2 = true) :
    l.load now e p w = { result := some c, loader := l, invoked := [] } ∧
    (l.load now e p w).loader.load now2 e2 p2 w2 =
      { result := some c, loader := l, invoked := [] } := by
  have h1 : l.load now e p w = { result := some c, loader := l, invoked := [] } := by
    simp [CredentialLoader.load, hc, hv]
  refine ⟨h1, ?_⟩
  rw [h1]
  simp [CredentialLoader.load, hc, hv2]

/-- Witness for C1: a concrete loader whose cache holds a credential expiring
at time 100, loaded at times 5 and 7. -/
theorem aws_load_cache_hit_witness :
    CredentialLoader.load
      { credential := some { access_key_id := "ak", secret_access_key := "sk",
                             session_token := none, expires_in := some 100 },
        disable_env := false, disable_profile := false,
        disable_assume_role_with_web_identity := false }
      5 { access_key_id := none, secret_access_key := none, session_token := none }
      { access_key_id := none, secret_access_key := none, session_token := none } none =
    { result := some { access_key_id := "ak", secret_access_key := "sk",
                       session_token := none, expires_in := some 100 },
      loader := { credential := some { access_key_id := "ak", secret_access_key := "sk",
                                       session_token := none, expires_in := some 100 },
                  disable_env := false, disable_profile := false,
                  disable_assume_role_with_web_identity := false },
      invoked := [] } :=
  (aws_load_cache_hit _ 5 7
    { access_key_id := none, secret_access_key := none, session_token := none }
    { access_key_id := none, secret_access_key := none, session_token := none }
    { access_key_id := none, secret_access_key := none, session_token := none }
    { access_key_id := none, secret_access_key := none, session_token := none }
    none none _ rfl (by decide) (by decide)).1

/-- C2: on a cache miss, load invokes the providers in the fixed order env,
profile, assume-role-with-web-identity; the first provider returning Some
has that credential written into the cache slot (replacing its contents)
and returned; if every provider returns None, load returns None with the
slot untouched, and the return type has no error channel. -/
theorem aws_load_cache_miss_chain (l : CredentialLoader) (now : Int)
    (e p : ConfigState) (w : Option Credential)
    (hmiss : ∀ c, l.credential = some c → c.is_valid now = false) :
    (∀ c, l.load_via_env e = some c →
      l.load now e p w =
        { result := some c, loader := { l with credential := some c },
          invoked := [Provider.env] }) ∧
    (l.load_via_env e = none → ∀ c, l.load_via_profile p = some c →
      l.load now e p w =
        { result := some c, loader := { l with credential := some c },
          invoked := [Provider.env, Provider.profile] }) ∧
    (l.load_via_env e = none → l.load_via_profile p = none →
      ∀ c, l.load_web w = some c →
      l.load now e p w =
        { result := some c, loader := { l with credential := some c },
          invoked := [Provider.env, Provider.profile, Provider.webIdentity] }) ∧
    (l.load_via_env e = none → l.load_via_profile p = none → l.load_web w = none →
      l.load now e p w =
        { result := none, loader := l,
          invoked := [Provider.env, Provider.profile, Provider.webIdentity] }) := by
  have hload : l.load now e p w = l.loadOnMiss e p w := by
    unfold CredentialLoader.load
    cases hcred : l.credential with
    | none => rfl
    | some c => simp [hmiss c hcred]
  refine ⟨?_, ?_, ?_, ?_⟩
  · intro c hc
    simp [hload, CredentialLoader.loadOnMiss, CredentialLoader.chain, hc]
  · intro he c hc
    simp [hload, CredentialLoader.loadOnMiss, CredentialLoader.chain, he, hc]
  · intro he hp c hc
    simp [hload, CredentialLoader.loadOnMiss, CredentialLoader.chain, he, hp, hc]
  · intro he hp hw
    simp [hload, CredentialLoader.loadOnMiss, CredentialLoader.chain, he, hp, hw]

/-- Witness for C2: an empty-cache loader whose environment provider finds a
key pair; load returns it, caches it and the trace is exactly the env
provider. -/
theorem aws_load_cache_miss_chain_witness :
    CredentialLoader.load
      { credential := none, disable_env := false, disable_profile := false,
        disable_assume_role_with_web_identity := false }
      0 { access_key_id := some "ak", secret_access_key := some "sk", session_token := none }
      { access_key_id := none, secret_access_key := none, session_token := none } none =
    { result := some { access_key_id := "ak", secret_access_key := "sk",
                       session_token := none, expires_in := none },
      loader := { credential := some { access_key_id := "ak", secret_access_key := "sk",
                                       session_token := none, expires_in := none },
                  disable_env := false, disable_profile := false,
                  disable_assume_role_with_web_identity := false },
      invoked := [Provider.env] } :=
  (aws_load_cache_miss_chain
    { credential := none, disable_env := false, disable_profile := false,
      disable_assume_role_with_web_identity := false }
    0 { access_key_id := some "ak", secret_access_key := some "sk", session_token := none }
    { access_key_id := none, secret_access_key := none, session_token := none } none
    (fun c hc => by simp at hc)).1
    { access_key_id := "ak", secret_access_key := "sk",
      session_token := none, expires_in := none } (by decide)

/-- C3: when the inner STS exchange fails on every attempt, exactly 5
attempts are made (1 initial plus 4 retries), a backoff sleep happens
between consecutive attempts with the base delay doubling from 1s up to 8s
and jitter keeping each sleep in the half-open doubled interval, the
exhaustion warning is logged, and the provider returns None rather than an
error. -/
theorem web_identity_retry_exhaustion
    (inner : Nat → Except String (Option Credential)) (jitter : Nat → ℚ)
    (hf : ∀ n, ∃ e, inner n = Except.error e)
    (hj0 : ∀ i, 0 ≤ jitter i) (hj1 : ∀ i, jitter i < 1) :
    (load_via_assume_role_with_web_identity false inner jitter).result = none ∧
    (load_via_assume_role_with_web_identity false inner jitter).attempts = 5 ∧
    (load_via_assume_role_with_web_identity false inner jitter).warned = true ∧
    (load_via_assume_role_with_web_identity false inner jitter).sleeps =
      [backoffDelay jitter 0, backoffDelay jitter 1,
       backoffDelay jitter 2, backoffDelay jitter 3] ∧
    (∀ i, i < 4 →
      (2 : ℚ) ^ i ≤ backoffDelay jitter i ∧ backoffDelay jitter i < 2 ^ (i + 1)) := by
  obtain ⟨e0, h0⟩ := hf 0
  obtain ⟨e1, h1⟩ := hf 1
  obtain ⟨e2, h2⟩ := hf 2
  obtain ⟨e3, h3⟩ := hf 3
  obtain ⟨e4, h4⟩ := hf 4
  refine ⟨?_, ?_, ?_, ?_, ?_⟩
  · simp [load_via_assume_role_with_web_identity, retryLoop, h0, h1, h2, h3, h4]
  · simp [load_via_assume_role_with_web_identity, retryLoop, h0, h1, h2, h3, h4]
  · simp [load_via_assume_role_with_web_identity, retryLoop, h0, h1, h2, h3, h4]
  · simp [load_via_assume_role_with_web_identity, retryLoop, h0, h1, h2, h3, h4]
  · intro i hi
    have hl := hj0 i
    have hr := hj1 i
    interval_cases i <;>
      · constructor <;>
          · simp only [backoffDelay]
            norm_num
            nlinarith

/-- Witness for C3: an inner exchange that always fails with a fixed error
and a zero jitter stream make exactly 5 attempts. -/
theorem web_identity_retry_exhaustion_witness :
    (load_via_assume_role_with_web_identity false
      (fun _ => Except.error "request to AWS STS Services failed") (fun _ => 0)).attempts = 5 :=
  (web_identity_retry_exhaustion
    (fun _ => Except.error "request to AWS STS Services failed") (fun _ => 0)
    (fun _ => ⟨"request to AWS STS Services failed", rfl⟩)
    (fun _ => le_refl 0) (fun _ => by norm_num)).2.1

/-- C6: when the web-identity token-file path or the role ARN is absent, the
inner exchange returns Ok None (not an error) with no file read and no HTTP
request. -/
theorem web_identity_missing_config_returns_none (cfg : AwsWebConfig)
    (readFile : String → Except String String)
    (http : HttpRequest → Except String HttpResponse)
    (parseXml : String → Except String StsCredentials)
    (parseRfc3339 : String → Except String Int)
    (h : cfg.web_identity_token_file = none ∨ cfg.role_arn = none) :
    (load_via_assume_role_with_web_identity_inner cfg readFile http parseXml
        parseRfc3339).result = Except.ok none ∧
    (load_via_assume_role_with_web_identity_inner cfg readFile http parseXml
        parseRfc3339).files_read = [] ∧
    (load_via_assume_role_with_web_identity_inner cfg readFile http parseXml
        parseRfc3339).requests = [] := by
  rcases h with h | h
  · cases hr : cfg.role_arn <;>
      simp [load_via_assume_role_with_web_identity_inner, h, hr]
  · cases ht : cfg.web_identity_token_file <;>
      simp [load_via_assume_role_with_web_identity_inner, h, ht]

/-- Witness for C6: a config with a role ARN but no token file yields Ok
None with empty traces. -/
theorem web_identity_missing_config_returns_none_witness :
    (load_via_assume_role_with_web_identity_inner
      { web_identity_token_file := none, role_arn := some "arn:aws:iam::123:role/r",
        role_session_name := "reqsign" }
      (fun _ => Except.error "no file read expected")
      (fun _ => Except.error "no request expected")
      (fun _ => Except.error "no parse expected")
      (fun _ => Except.error "no parse expected")).result = Except.ok none :=
  (web_identity_missing_config_returns_none
    { web_identity_token_file := none, role_arn := some "arn:aws:iam::123:role/r",
      role_session_name := "reqsign" }
    (fun _ => Except.error "no file read expected")
    (fun _ => Except.error "no request expected")
    (fun _ => Except.error "no parse expected")
    (fun _ => Except.error "no parse expected")
    (Or.inl rfl)).1

/-- C4: the session-token phase returns the stored token with no network
call when the stored expiry is strictly in the future; otherwise it issues
the PUT with header x-aws-ec2-metadata-token-ttl-seconds 21600 and an empty
body with content-length 0, and on a 200 response stores the body with
expiry now plus 21600 minus 600 seconds, so a second load within that
window issues no further PUT: exactly one PUT in total for the two loads. -/
theorem imds_token_phase (cache : TokenCache) (now now2 : Int) (tok : String)
    (http http2 : HttpRequest → Except String HttpResponse)
    (hmiss : ¬ now < cache.expires_in)
    (hput : http ec2TokenRequest = Except.ok { status := 200, body := tok })
    (hwin : now2 < now + 21600 - 600) :
    ec2TokenRequest.method = "PUT" ∧
    ec2TokenRequest.headers =
      [("content-length", "0"), ("x-aws-ec2-metadata-token-ttl-seconds", "21600")] ∧
    ec2TokenRequest.body = "" ∧
    (∀ (c : TokenCache) (n : Int) (h : HttpRequest → Except String HttpResponse),
      n < c.expires_in →
      load_ec2_metadata_token c n h =
        { result := Except.ok c.token, cache := c, requests := [] }) ∧
    load_ec2_metadata_token cache now http =
      { result := Except.ok tok,
        cache := { token := tok, expires_in := now + 21600 - 600 },
        requests := [ec2TokenRequest] } ∧
    load_ec2_metadata_token { token := tok, expires_in := now + 21600 - 600 } now2 http2 =
      { result := Except.ok tok,
        cache := { token := tok, expires_in := now + 21600 - 600 },
        requests := [] } := by
  refine ⟨rfl, rfl, rfl, ?_, ?_, ?_⟩
  · intro c n h hh
    simp [load_ec2_metadata_token, hh]
  · simp [load_ec2_metadata_token, hmiss, hput]
  · simp [load_ec2_metadata_token, hwin]

/-- Witness for C4: an expired sub-cache at time 0, a transport answering
the token PUT with status 200 and body tok; the phase stores expiry 21000
and a second load at time 20999 reuses the token. -/
theorem imds_token_phase_witness :
    load_ec2_metadata_token { token := "old", expires_in := 0 } 0
      (fun _ => Except.ok { status := 200, body := "tok" }) =
    { result := Except.ok "tok",
      cache := { token := "tok", expires_in := 0 + 21600 - 600 },
      requests := [ec2TokenRequest] } ∧
    load_ec2_metadata_token { token := "tok", expires_in := 0 + 21600 - 600 } 20999
      (fun _ => Except.error "no request expected") =
    { result := Except.ok "tok",
      cache := { token := "tok", expires_in := 0 + 21600 - 600 },
      requests := [] } :=
  ⟨(imds_token_phase { token := "old", expires_in := 0 } 0 20999 "tok"
      (fun _ => Except.ok { status := 200, body := "tok" })
      (fun _ => Except.error "no request expected")
      (by decide) rfl (by decide)).2.2.2.2.1,
   (imds_token_phase { token := "old", expires_in := 0 } 0 20999 "tok"
      (fun _ => Except.ok { status := 200, body := "tok" })
      (fun _ => Except.error "no request expected")
      (by decide) rfl (by decide)).2.2.2.2.2⟩

/-- C5: the Code field of the parsed credential JSON gives a three-way
outcome: Success builds the credential from the response with session_token
Some Token and expires_in Some of the parsed Expiration;
AssumeRoleUnauthorizedAccess gives the trust-relationship error; any other
code gives the generic error carrying the code and message; and the
unauthorized error differs from the generic error whatever the messages. -/
theorem imds_code_dispatch_trichotomy (parseRfc3339 : String → Except String Int)
    (resp : Ec2MetadataIamSecurityCredentials) :
    (resp.code = "Success" → ∀ exp, parseRfc3339 resp.expiration = Except.ok exp →
      imdsCodeDispatch parseRfc3339 resp =
        Except.ok (some
          { access_key_id := resp.access_key_id,
            secret_access_key := resp.secret_access_key,
            session_token := some resp.token,
            expires_in := some exp })) ∧
    (resp.code = "AssumeRoleUnauthorizedAccess" →
      imdsCodeDispatch parseRfc3339 resp =
        Except.error (imdsUnauthorizedMsg resp.code resp.message)) ∧
    (resp.code ≠ "Success" → resp.code ≠ "AssumeRoleUnauthorizedAccess" →
      imdsCodeDispatch parseRfc3339 resp =
        Except.error (imdsGenericErrorMsg resp.code resp.message)) ∧
    (∀ m1 c2 m2, imdsUnauthorizedMsg "AssumeRoleUnauthorizedAccess" m1 ≠
      imdsGenericErrorMsg c2 m2) := by
  refine ⟨?_, ?_, ?_, ?_⟩
  · intro hs exp hp
    simp [imdsCodeDispatch, hs, hp]
  · intro ha
    simp [imdsCodeDispatch, ha]
  · intro hs ha
    simp [imdsCodeDispatch, hs, ha]
  · intro m1 c2 m2 h
    have hh : (imdsUnauthorizedMsg "AssumeRoleUnauthorizedAccess" m1).data.head? =
        (imdsGenericErrorMsg c2 m2).data.head? := by rw [h]
    simp only [imdsUnauthorizedMsg, imdsGenericErrorMsg, String.data_append] at hh
    simp at hh

/-- Witness for C5: a Success response with a parseable expiration builds
the credential from the response fields. -/
theorem imds_code_dispatch_trichotomy_witness :
    imdsCodeDispatch (fun _ => Except.ok 1653479117)
      { access_key_id := "ak", secret_access_key := "sk", token := "tok",
        expiration := "2022-05-25T11:45:17Z", code := "Success", message := "" } =
    Except.ok (some
      { access_key_id := "ak", secret_access_key := "sk",
        session_token := some "tok", expires_in := some 1653479117 }) :=
  (imds_code_dispatch_trichotomy (fun _ => Except.ok 1653479117)
    { access_key_id := "ak", secret_access_key := "sk", token := "tok",
      expiration := "2022-05-25T11:45:17Z", code := "Success", message := "" }).1
    rfl 1653479117 rfl

/-- C7: for the Azure managed-identity get_token, a response whose HTTP
status is not a success status makes the call fail at once: the outcome is
the fatal panicked failure, exactly one request was sent (no retry), and
the body parser is never consulted (it is universally quantified and absent
from the outcome). -/
theorem azure_get_token_non_success_fatal (c : ImdsManagedIdentityCredential)
    (resource : String) (http : HttpRequest → Except String HttpResponse)
    (parseJson : String → Except String MsiTokenResponse) (resp : HttpResponse)
    (hsend : http (c.buildTokenRequest resource) = Except.ok resp)
    (hbad : statusIsSuccess resp.status = false) :
    c.get_token resource http parseJson =
      { result := GetTokenResult.panicked ("Error getting MSI token: " ++ resp.body),
        requests := [c.buildTokenRequest resource] } := by
  simp [ImdsManagedIdentityCredential.get_token, hsend, hbad]

/-- Witness for C7: a transport answering status 400 makes get_token fail
immediately with the panicked outcome after a single request. -/
theorem azure_get_token_non_success_fatal_witness :
    ImdsManagedIdentityCredential.get_token ImdsManagedIdentityCredential.new
      "https://storage.azure.com/"
      (fun _ => Except.ok { status := 400, body := "bad request" })
      (fun _ => Except.error "no parse expected") =
    { result := GetTokenResult.panicked ("Error getting MSI token: " ++ "bad request"),
      requests := [ImdsManagedIdentityCredential.new.buildTokenRequest
        "https://storage.azure.com/"] } :=
  azure_get_token_non_success_fatal ImdsManagedIdentityCredential.new
    "https://storage.azure.com/"
    (fun _ => Except.ok { status := 400, body := "bad request" })
    (fun _ => Except.error "no parse expected")
    { status := 400, body := "bad request" } rfl (by decide)

/-- Applying any single selector builder call leaves exactly the selector it
sets, whatever the previous state. -/
theorem selectorItems_applySelectorOp (c : ImdsManagedIdentityCredential) (op : SelectorOp) :
    (applySelectorOp c op).selectorItems = op.item := by
  cases op <;> rfl

/-- Applying any single selector builder call leaves exactly one selector
field set, whatever the previous state. -/
theorem selectorCount_applySelectorOp (c : ImdsManagedIdentityCredential) (op : SelectorOp) :
    selectorCount (applySelectorOp c op) = 1 := by
  cases op <;> rfl

/-- C8: after any sequence of with_object_id, with_client_id and
with_identity builder calls starting from new, at most one identity-selector
field is set, and the request built by get_token carries, besides
api-version and resource, exactly the selector configured last (none when no
selector call was made). -/
theorem azure_selector_exclusivity (ops : List SelectorOp) (resource : String) :
    selectorCount (applySelectorOps ImdsManagedIdentityCredential.new ops) ≤ 1 ∧
    ((applySelectorOps ImdsManagedIdentityCredential.new ops).buildTokenRequest
        resource).query =
      [("api-version", "2019-08-01"), ("resource", resource)] ++
        (ops.getLast?).elim [] SelectorOp.item := by
  induction ops using List.reverseRecOn with
  | nil => exact ⟨by decide, rfl⟩
  | append_singleton ops op ih =>
    have happ : applySelectorOps ImdsManagedIdentityCredential.new (ops ++ [op]) =
        applySelectorOp (applySelectorOps ImdsManagedIdentityCredential.new ops) op := by
      simp [applySelectorOps, List.foldl_append]
    refine ⟨?_, ?_⟩
    · rw [happ, selectorCount_applySelectorOp]
    · rw [happ]
      show ImdsManagedIdentityCredential.queryItems _ resource = _
      rw [ImdsManagedIdentityCredential.queryItems, selectorItems_applySelectorOp]
      simp [MSI_API_VERSION]

/-- C9: the Azure storage loader cache check ignores validity and
provenance: once the shared slot holds any credential, both load and
load_with_imds return it unchanged with no I/O (load_with_imds issues zero
IMDS requests, whatever the oracle would answer); in particular after load
cached a static-config credential on an empty slot, a later load_with_imds
returns that credential and never queries the IMDS endpoint. -/
theorem azure_cache_ignores_validity_and_provenance
    (l : AzureLoader) (c : AzureCredential) (oracle : Except String MsiTokenResponse)
    (hc : l.credential = some c) :
    l.load = { result := Except.ok (some c), loader := l, imds_requests := 0 } ∧
    l.load_with_imds oracle =
      { result := Except.ok (some c), loader := l, imds_requests := 0 } ∧
    (∀ (cfg : AzureConfig) (t : String), cfg.sas_token = some t →
      ∀ oracle2 : Except String MsiTokenResponse,
      (AzureLoader.load { config := cfg, credential := none }).result =
        Except.ok (some (AzureCredential.SharedAccessSignature t)) ∧
      AzureLoader.load_with_imds
          (AzureLoader.load { config := cfg, credential := none }).loader oracle2 =
        { result := Except.ok (some (AzureCredential.SharedAccessSignature t)),
          loader := (AzureLoader.load { config := cfg, credential := none }).loader,
          imds_requests := 0 }) := by
  refine ⟨?_, ?_, ?_⟩
  · simp [AzureLoader.load, hc]
  · simp [AzureLoader.load_with_imds, hc]
  · intro cfg t ht oracle2
    constructor
    · simp [AzureLoader.load, AzureLoader.load_inner, AzureLoader.load_via_config, ht]
    · simp [AzureLoader.load, AzureLoader.load_inner, AzureLoader.load_via_config,
        AzureLoader.load_with_imds, ht]

/-- Witness for C9: a loader whose slot holds a SharedKey credential from
static config; load_with_imds returns it with zero IMDS requests even
though the oracle would fail. -/
theorem azure_cache_ignores_validity_and_provenance_witness :
    AzureLoader.load_with_imds
      { config := { sas_token := none, account_name := some "acc", account_key := some "key" },
        credential := some (AzureCredential.SharedKey "acc" "key") }
      (Except.error "no IMDS request expected") =
    { result := Except.ok (some (AzureCredential.SharedKey "acc" "key")),
      loader := { config := { sas_token := none, account_name := some "acc",
                              account_key := some "key" },
                  credential := some (AzureCredential.SharedKey "acc" "key") },
      imds_requests := 0 } :=
  (azure_cache_ignores_validity_and_provenance
    { config := { sas_token := none, account_name := some "acc", account_key := some "key" },
      credential := some (AzureCredential.SharedKey "acc" "key") }
    (AzureCredential.SharedKey "acc" "key")
    (Except.error "no IMDS request expected") rfl).2.1

/-- C10: the static Azure config provider has fixed precedence: a configured
SAS token wins whatever the account fields hold; else both account name and
account key give a SharedKey credential; else None; and it can never return
an error (and, taking no transport argument, performs no I/O). -/
theorem azure_config_provider_static (l : AzureLoader) :
    (∀ t, l.config.sas_token = some t →
      l.load_via_config = Except.ok (some (AzureCredential.SharedAccessSignature t))) ∧
    (l.config.sas_token = none → ∀ an ak, l.config.account_name = some an →
      l.config.account_key = some ak →
      l.load_via_config = Except.ok (some (AzureCredential.SharedKey an ak))) ∧
    (l.config.sas_token = none →
      (l.config.account_name = none ∨ l.config.account_key = none) →
      l.load_via_config = Except.ok none) ∧
    (∀ e, l.load_via_config ≠ Except.error e) := by
  refine ⟨?_, ?_, ?_, ?_⟩
  · intro t ht
    simp [AzureLoader.load_via_config, ht]
  · intro hs an ak han hak
    simp [AzureLoader.load_via_config, hs, han, hak]
  · intro hs h
    rcases h with h | h
    · cases hk : l.config.account_key <;>
        simp [AzureLoader.load_via_config, hs, h, hk]
    · cases hn : l.config.account_name <;>
        simp [AzureLoader.load_via_config, hs, h, hn]
  · intro e h
    cases hs : l.config.sas_token with
    | some t => simp [AzureLoader.load_via_config, hs] at h
    | none =>
      cases hn : l.config.account_name <;> cases hk : l.config.account_key <;>
        simp [AzureLoader.load_via_config, hs, hn, hk] at h

/-- Witness for C10: a config holding a SAS token and both account fields
yields the SharedAccessSignature credential. -/
theorem azure_config_provider_static_witness :
    AzureLoader.load_via_config
      { config := { sas_token := some "sig", account_name := some "acc",
                    account_key := some "key" },
        credential := none } =
    Except.ok (some (AzureCredential.SharedAccessSignature "sig")) :=
  (azure_config_provider_static
    { config := { sas_token := some "sig", account_name := some "acc",
                  account_key := some "key" },
      credential := none }).1 "sig" rfl
